import Mathlib

/-!
Shallow embedding of the authentication / dual-client request-routing core of
the salesforce-mcp repository (TypeScript), together with proofs about it.

Strings are modelled as `List Char`; JavaScript `String.prototype.includes`
and `String.prototype.startsWith` are modelled as decidable substring /
prefix tests, and `String.prototype.toLowerCase` as a character-wise
`Char.toLower` map.  Asynchronous HTTP effects are modelled by passing the
would-be responses in explicitly (an environment record), and the mutable
fields of the TypeScript classes are modelled as explicit state records.
-/

/-- JS `hay.includes(needle)`: contiguous-substring test
(`src/client/rest-client.ts`, `soql.toLowerCase().includes(...)`). -/
def jsIncludes (hay needle : List Char) : Bool :=
  decide (needle <:+: hay)

/-- JS `s.startsWith(pre)` (`src/client/rest-client.ts`, interceptor). -/
def jsStartsWith (s pre : List Char) : Bool :=
  decide (pre <+: s)

/-- JS `s.toLowerCase()`, character-wise (the strings the code lowercases are
ASCII object names, for which this agrees with JS). -/
def jsToLower (s : List Char) : List Char :=
  s.map Char.toLower

/-- The fixed list of Tooling-only object names from
`SalesforceRestClient.query` (`src/client/rest-client.ts`). -/
def toolingObjects : List (List Char) :=
  ["AsyncApexJob".data, "ApexClass".data, "ApexTrigger".data, "ApexPage".data,
   "ApexLog".data, "ApexCodeCoverage".data, "ApexCodeCoverageAggregate".data,
   "SymbolTable".data]

/-- `toolingObjects.some(obj => soql.toLowerCase().includes(obj.toLowerCase()))`
from `SalesforceRestClient.query`. -/
def containsToolingObject (soql : List Char) : Bool :=
  toolingObjects.any (fun obj => jsIncludes (jsToLower soql) (jsToLower obj))

/-- Which request `SalesforceRestClient.query` ends up issuing: a Tooling
Client query or a standard REST `/query` call. -/
inductive QueryRequest where
  | toolingQuery (soql : List Char)
  | restQuery (soql : List Char)
deriving DecidableEq, Repr

/-- `SalesforceRestClient.query` (`src/client/rest-client.ts`): route to the
Tooling Client when the SOQL text mentions a tooling object, otherwise to the
standard REST `/query` endpoint. -/
def SalesforceRestClient.query (soql : List Char) : QueryRequest :=
  if containsToolingObject soql then
    QueryRequest.toolingQuery soql
  else
    QueryRequest.restQuery soql

/-- The classifier condition, spelled out as a proposition: some tooling
object name occurs case-insensitively as a substring of the SOQL text. -/
theorem containsToolingObject_iff (soql : List Char) :
    containsToolingObject soql = true ↔
      ∃ obj ∈ toolingObjects, jsToLower obj <:+: jsToLower soql := by
  unfold containsToolingObject jsIncludes
  rw [List.any_eq_true]
  constructor
  · rintro ⟨obj, hmem, hdec⟩
    exact ⟨obj, hmem, of_decide_eq_true hdec⟩
  · rintro ⟨obj, hmem, hinf⟩
    exact ⟨obj, hmem, decide_eq_true hinf⟩

theorem query_eq_tooling_iff (soql : List Char) :
    SalesforceRestClient.query soql = QueryRequest.toolingQuery soql ↔
      ∃ obj ∈ toolingObjects, jsToLower obj <:+: jsToLower soql := by
  unfold SalesforceRestClient.query
  rw [← containsToolingObject_iff]
  by_cases h : containsToolingObject soql = true
  · simp [h]
  · simp [h]

theorem query_eq_rest_iff (soql : List Char) :
    SalesforceRestClient.query soql = QueryRequest.restQuery soql ↔
      ¬ ∃ obj ∈ toolingObjects, jsToLower obj <:+: jsToLower soql := by
  unfold SalesforceRestClient.query
  rw [← containsToolingObject_iff]
  by_cases h : containsToolingObject soql = true
  · simp [h]
  · simp [h]

/-- **C1.** `query` routes a SOQL string to the Tooling Client exactly when
the string contains, case-insensitively, one of the eight fixed
tooling-object names as a substring, and to the standard REST `/query`
endpoint otherwise; in particular `"SELECT Id FROM AsyncApexJob"` goes to
Tooling and `"SELECT Id FROM Account"` goes to REST. -/
theorem query_routes_by_tooling_object_substring :
    (∀ soql : List Char,
      (SalesforceRestClient.query soql = QueryRequest.toolingQuery soql ↔
        ∃ obj ∈ toolingObjects, jsToLower obj <:+: jsToLower soql) ∧
      (SalesforceRestClient.query soql = QueryRequest.restQuery soql ↔
        ¬ ∃ obj ∈ toolingObjects, jsToLower obj <:+: jsToLower soql)) ∧
    SalesforceRestClient.query "SELECT Id FROM AsyncApexJob".data =
      QueryRequest.toolingQuery "SELECT Id FROM AsyncApexJob".data ∧
    SalesforceRestClient.query "SELECT Id FROM Account".data =
      QueryRequest.restQuery "SELECT Id FROM Account".data := by
  refine ⟨fun soql => ⟨query_eq_tooling_iff soql, query_eq_rest_iff soql⟩, ?_, ?_⟩
  · decide
  · decide

/-- **C9.** The classifier is monotone under string extension: if a SOQL
string routes to the Tooling Client, then so does any superstring obtained
by prepending and/or appending arbitrary text; extending a query can never
switch routing from Tooling back to REST. -/
theorem query_tooling_monotone_under_extension
    (s p t : List Char)
    (h : SalesforceRestClient.query s = QueryRequest.toolingQuery s) :
    SalesforceRestClient.query (p ++ s ++ t) =
      QueryRequest.toolingQuery (p ++ s ++ t) := by
  rw [query_eq_tooling_iff] at h
  rw [query_eq_tooling_iff]
  obtain ⟨obj, hmem, u, v, huv⟩ := h
  refine ⟨obj, hmem, jsToLower p ++ u, v ++ jsToLower t, ?_⟩
  unfold jsToLower
  rw [List.map_append, List.map_append]
  unfold jsToLower at huv
  rw [← huv]
  simp [List.append_assoc]

/-- Witness for C9 at a concrete input. -/
theorem query_tooling_monotone_under_extension_witness :
    SalesforceRestClient.query
        ("SELECT Id FROM ".data ++ "ApexLog".data ++ " LIMIT 5".data) =
      QueryRequest.toolingQuery
        ("SELECT Id FROM ".data ++ "ApexLog".data ++ " LIMIT 5".data) :=
  query_tooling_monotone_under_extension "ApexLog".data
    "SELECT Id FROM ".data " LIMIT 5".data (by decide)

/-! ### URL handling of the REST client's axios request interceptor -/

/-- The request interceptor of `SalesforceRestClient.setupInterceptors`
(`src/client/rest-client.ts`): a request URL that does not start with
`"http"` is rewritten to `instanceUrl + "/services/data/v59.0/" + url`;
any other URL is left untouched. -/
def interceptRequestUrl (instanceUrl url : List Char) : List Char :=
  if jsStartsWith url "http".data then url
  else instanceUrl ++ "/services/data/v59.0/".data ++ url

/-- `SalesforceRestClient.queryMore` (`src/client/rest-client.ts`): the
continuation URL is handed to `httpClient.get` unchanged, after which the
request interceptor above determines the URL actually requested. -/
def SalesforceRestClient.queryMore (instanceUrl nextRecordsUrl : List Char) :
    List Char :=
  interceptRequestUrl instanceUrl nextRecordsUrl

/-- **C4, counterexample.** A relative continuation URL (as Salesforce in
fact returns in `nextRecordsUrl`) is *not* requested verbatim: the
interceptor prefixes the instance URL and the v59.0 data path. -/
theorem queryMore_rewrites_relative_continuation_url :
    SalesforceRestClient.queryMore
        "https://org.example.com".data
        "/services/data/v59.0/query/01g-next".data ≠
      "/services/data/v59.0/query/01g-next".data := by
  decide

/-- **C4, amended.** `queryMore` issues its request to exactly the given
continuation URL when that URL starts with `"http"`; a continuation URL not
starting with `"http"` is rewritten by the request interceptor to
`instanceUrl ++ "/services/data/v59.0/" ++ url`. -/
theorem queryMore_url_characterisation
    (instanceUrl u : List Char) :
    ("http".data <+: u →
      SalesforceRestClient.queryMore instanceUrl u = u) ∧
    (¬ "http".data <+: u →
      SalesforceRestClient.queryMore instanceUrl u =
        instanceUrl ++ "/services/data/v59.0/".data ++ u) := by
  unfold SalesforceRestClient.queryMore interceptRequestUrl jsStartsWith
  constructor
  · intro h
    simp [decide_eq_true h]
  · intro h
    simp [decide_eq_false h]

/-- Witness for the amended C4 at concrete inputs. -/
theorem queryMore_url_characterisation_witness :
    SalesforceRestClient.queryMore
        "https://org.example.com".data
        "https://org.example.com/services/data/v60.0/query/01g".data =
      "https://org.example.com/services/data/v60.0/query/01g".data :=
  (queryMore_url_characterisation
      "https://org.example.com".data
      "https://org.example.com/services/data/v60.0/query/01g".data).1
    (by decide)

/-! ### The response interceptor's error handling -/

/-- The data of an axios error as consumed by the response interceptor:
`error.response?.status` and `error.response.data?.message`. -/
structure HttpError where
  status : Option Nat
  message : Option (List Char)
deriving DecidableEq, Repr

/-- The observable actions the HTTP layer could take on a failed response.
The constructors `retryRequest` and `reauthenticate` exist so that their
absence from the interceptor's behaviour is a statement about the code, not
about the type. -/
inductive ClientEffect where
  | logError (msg : List Char)
  | rejectWith (e : HttpError)
  | retryRequest
  | reauthenticate
deriving DecidableEq, Repr

/-- The 401 message logged by `SalesforceRestClient.setupInterceptors`. -/
def authFailedMsg : List Char :=
  "Authentication failed. Please check your credentials.".data

/-- The fallback 400 message of the same interceptor. -/
def badRequestMsg : List Char :=
  "Bad Request. Please check your request parameters.".data

/-- The response-error interceptor of `SalesforceRestClient.setupInterceptors`
(`src/client/rest-client.ts`): log a credentials message on 401, log the
server-provided (or fallback) message on 400, then reject with the original
error. -/
def responseErrorInterceptor (e : HttpError) : List ClientEffect :=
  (if e.status = some 401 then [ClientEffect.logError authFailedMsg] else []) ++
  (if e.status = some 400 then
    [ClientEffect.logError
      (match e.message with
       | some m => if m.isEmpty then badRequestMsg else m
       | none => badRequestMsg)]
   else []) ++
  [ClientEffect.rejectWith e]

/-- **C7.** A 401 response makes the client log the user-actionable
"check your credentials" message and reject with the original error; it
performs no retry and no re-authentication within the call. -/
theorem http401_logs_credentials_message_and_rejects
    (e : HttpError) (h : e.status = some 401) :
    responseErrorInterceptor e =
      [ClientEffect.logError authFailedMsg, ClientEffect.rejectWith e] ∧
    "check your credentials".data <:+: authFailedMsg ∧
    ClientEffect.retryRequest ∉ responseErrorInterceptor e ∧
    ClientEffect.reauthenticate ∉ responseErrorInterceptor e := by
  have hne : e.status ≠ some 400 := by rw [h]; decide
  refine ⟨?_, by decide, ?_, ?_⟩
  · simp [responseErrorInterceptor, h, hne]
  · simp [responseErrorInterceptor, h, hne]
  · simp [responseErrorInterceptor, h, hne]

/-- Witness for C7 at a concrete 401 error. -/
theorem http401_logs_credentials_message_and_rejects_witness :
    responseErrorInterceptor ⟨some 401, none⟩ =
      [ClientEffect.logError authFailedMsg,
       ClientEffect.rejectWith ⟨some 401, none⟩] :=
  (http401_logs_credentials_message_and_rejects ⟨some 401, none⟩ rfl).1

/-! ### The multi-strategy token provider (`SalesforceAuth`, CLI-aware
version of `src/auth/salesforce-auth.ts`) -/

/-- JS truthiness of an optional string field: present and non-empty. -/
def truthyStr : Option (List Char) → Bool
  | none => false
  | some s => !s.isEmpty

/-- The configuration record consumed by `SalesforceAuth`. -/
structure SalesforceConfig where
  instanceUrl : List Char
  clientId : List Char
  clientSecret : Option (List Char)
  username : Option (List Char)
  password : Option (List Char)
  securityToken : Option (List Char)
  privateKey : Option (List Char)
  subject : Option (List Char)
  targetOrg : Option (List Char)
deriving DecidableEq, Repr

/-- The mutable fields of the `SalesforceAuth` class: `accessToken`,
`instanceUrl`, `tokenExpiresAt` (epoch milliseconds). -/
structure AuthState where
  accessToken : Option (List Char)
  instanceUrl : Option (List Char)
  tokenExpiresAt : Option Int
deriving DecidableEq, Repr

/-- The fresh state of a newly constructed `SalesforceAuth`. -/
def AuthState.empty : AuthState := ⟨none, none, none⟩

/-- `this.accessToken && this.tokenExpiresAt && Date.now() < this.tokenExpiresAt`
(JS truthiness included: an empty token or a zero expiry is falsy). -/
def cacheValid (st : AuthState) (now : Int) : Bool :=
  match st.accessToken, st.tokenExpiresAt with
  | some t, some e => !t.isEmpty && e != 0 && decide (now < e)
  | _, _ => false

/-- One entry of the parsed `sf org list --json` output, with the fields the
code reads.  (`alias` is a Lean keyword, hence `orgAlias`.) -/
structure SfOrgInfo where
  orgAlias : Option (List Char)
  username : List Char
  accessToken : List Char
  instanceUrl : List Char
  connectedStatus : List Char
  isDefaultUsername : Option Bool
deriving DecidableEq, Repr

/-- The `result` object of the `sf org list --json` output. -/
structure SfOrgListResult where
  nonScratchOrgs : List SfOrgInfo
  devHubs : List SfOrgInfo
  scratchOrgs : List SfOrgInfo
  sandboxes : List SfOrgInfo
  other : List SfOrgInfo
deriving DecidableEq, Repr

/-- The full `sf org list --json` output: a status code plus the result. -/
structure SfOrgListResponse where
  status : Int
  result : SfOrgListResult
deriving DecidableEq, Repr

/-- The fields of the OAuth token-endpoint response the code consumes. -/
structure SalesforceTokenResponse where
  access_token : List Char
  instance_url : List Char
deriving DecidableEq, Repr

/-- The external outcomes a single `getAccessToken` call can observe:
the parsed CLI output (`none` when `execSync`/JSON parsing throws), the
OAuth responses of the two exchange flows (`none` when the POST rejects),
and the current time `Date.now()`. -/
structure AuthEnv where
  cliOutput : Option SfOrgListResponse
  jwtResponse : Option SalesforceTokenResponse
  passwordResponse : Option SalesforceTokenResponse
  now : Int
deriving DecidableEq, Repr

/-- The three authentication strategies. -/
inductive Strategy where
  | cli
  | jwt
  | password
deriving DecidableEq, Repr

/-- How a `getAccessToken` call fails: an `Error` thrown by the auth code
itself (with its message), or a rejected OAuth exchange of one of the two
network strategies, propagated as-is. -/
inductive AuthError where
  | thrown (msg : List Char)
  | network (s : Strategy)
deriving DecidableEq, Repr

/-- The flat TTL applied to every freshly cached token: one hour in ms. -/
def tokenTtlMs : Int := 3600 * 1000

/-- The message of the configuration error thrown when no strategy applies. -/
def invalidConfigMsg : List Char :=
  ("Invalid authentication configuration. Provide either SF CLI " ++
   "authentication, JWT (privateKey, subject) or username/password " ++
   "credentials.").data

/-- The message thrown when a strategy "succeeded" without a token. -/
def noTokenMsg : List Char := "Failed to obtain access token".data

/-- `"Connected"`, the status string the CLI strategy compares against. -/
def connectedLit : List Char := "Connected".data

/-- `allOrgs`: the concatenation of the five org groups, in source order. -/
def sfOrgAll (r : SfOrgListResult) : List SfOrgInfo :=
  r.nonScratchOrgs ++ r.devHubs ++ r.scratchOrgs ++ r.sandboxes ++ r.other

/-- Org selection inside `authenticateWithSfCli`: with a configured
`targetOrg`, find by alias or username; otherwise prefer the default org and
fall back to the first `"Connected"` one. -/
def selectSfOrg (cfg : SalesforceConfig) (allOrgs : List SfOrgInfo) :
    Except (List Char) SfOrgInfo :=
  if truthyStr cfg.targetOrg then
    match allOrgs.find? (fun o =>
        o.orgAlias == cfg.targetOrg || some o.username == cfg.targetOrg) with
    | some o => Except.ok o
    | none => Except.error "Org with alias or username not found in SF CLI".data
  else
    match allOrgs.find? (fun o => o.isDefaultUsername == some true) with
    | some o => Except.ok o
    | none =>
      match allOrgs.find? (fun o => o.connectedStatus == connectedLit) with
      | some o => Except.ok o
      | none => Except.error "No default or connected org found in SF CLI".data

/-- `SalesforceAuth.authenticateWithSfCli`: run `sf org list --json`, select
an org, require it to be `"Connected"`, and yield its access token and
instance URL.  All failures are reported as thrown errors (which the caller
swallows); no network request is involved. -/
def authenticateWithSfCli (cfg : SalesforceConfig) (env : AuthEnv) :
    Except (List Char) (List Char × List Char) :=
  match env.cliOutput with
  | none => Except.error "SF CLI is not installed or not available in PATH".data
  | some orgList =>
    if orgList.status != 0 then
      Except.error "Failed to get org list from SF CLI".data
    else
      let allOrgs := sfOrgAll orgList.result
      if allOrgs.isEmpty then
        Except.error "No authenticated orgs found in SF CLI".data
      else
        match selectSfOrg cfg allOrgs with
        | Except.error m => Except.error m
        | Except.ok o =>
          if o.connectedStatus != connectedLit then
            Except.error "Org is not connected".data
          else
            Except.ok (o.accessToken, o.instanceUrl)

/-- `this.config.privateKey && this.config.subject`. -/
def jwtConfigured (cfg : SalesforceConfig) : Bool :=
  truthyStr cfg.privateKey && truthyStr cfg.subject

/-- `this.config.username && this.config.password`. -/
def passwordConfigured (cfg : SalesforceConfig) : Bool :=
  truthyStr cfg.username && truthyStr cfg.password

/-- The observable outcome of one `getAccessToken` call: its return value or
error, the resulting cached state, the ordered list of strategies attempted,
and how many network (OAuth token-endpoint) requests were made. -/
structure GetTokenResult where
  result : Except AuthError (List Char)
  state : AuthState
  attempts : List Strategy
  netCalls : Nat
deriving Repr

/-- The state written by a successful token exchange or CLI reuse: all three
fields replaced together, with a flat one-hour TTL. -/
def freshState (token instanceUrl : List Char) (now : Int) : AuthState :=
  { accessToken := some token
    instanceUrl := some instanceUrl
    tokenExpiresAt := some (now + tokenTtlMs) }

/-- The fallback part of `getAccessToken` after the CLI attempt did not
return: `if (privateKey && subject) JWT else if (username && password)
usernamePassword else throw`, followed by the `if (!this.accessToken) throw`
check.  `att` is the list of strategies already attempted. -/
def authFallback (cfg : SalesforceConfig) (st : AuthState) (env : AuthEnv)
    (att : List Strategy) : GetTokenResult :=
  if jwtConfigured cfg then
    match env.jwtResponse with
    | none =>
      { result := Except.error (AuthError.network Strategy.jwt)
        state := st, attempts := att ++ [Strategy.jwt], netCalls := 1 }
    | some td =>
      let st' := freshState td.access_token td.instance_url env.now
      if td.access_token.isEmpty then
        { result := Except.error (AuthError.thrown noTokenMsg)
          state := st', attempts := att ++ [Strategy.jwt], netCalls := 1 }
      else
        { result := Except.ok td.access_token
          state := st', attempts := att ++ [Strategy.jwt], netCalls := 1 }
  else if passwordConfigured cfg then
    match env.passwordResponse with
    | none =>
      { result := Except.error (AuthError.network Strategy.password)
        state := st, attempts := att ++ [Strategy.password], netCalls := 1 }
    | some td =>
      let st' := freshState td.access_token td.instance_url env.now
      if td.access_token.isEmpty then
        { result := Except.error (AuthError.thrown noTokenMsg)
          state := st', attempts := att ++ [Strategy.password], netCalls := 1 }
      else
        { result := Except.ok td.access_token
          state := st', attempts := att ++ [Strategy.password], netCalls := 1 }
  else
    { result := Except.error (AuthError.thrown invalidConfigMsg)
      state := st, attempts := att, netCalls := 0 }

/-- `SalesforceAuth.getAccessToken`: return the cached token while
`now < expiry`; otherwise try the SF CLI first (errors swallowed), return its
token when one was set, and fall back to JWT / username-password. -/
def SalesforceAuth.getAccessToken (cfg : SalesforceConfig) (st : AuthState)
    (env : AuthEnv) : GetTokenResult :=
  if cacheValid st env.now then
    { result := Except.ok (st.accessToken.getD [])
      state := st, attempts := [], netCalls := 0 }
  else
    match authenticateWithSfCli cfg env with
    | Except.ok (tok, inst) =>
      let st' := freshState tok inst env.now
      if tok.isEmpty then
        authFallback cfg st' env [Strategy.cli]
      else
        { result := Except.ok tok
          state := st', attempts := [Strategy.cli], netCalls := 0 }
    | Except.error _ => authFallback cfg st env [Strategy.cli]

/-- Whether the CLI attempt ends with `return this.accessToken` inside
`getAccessToken`: it succeeded and set a (truthy) token. -/
def cliYieldsToken (cfg : SalesforceConfig) (env : AuthEnv) : Bool :=
  match authenticateWithSfCli cfg env with
  | Except.ok (tok, _) => !tok.isEmpty
  | Except.error _ => false

set_option maxRecDepth 16384 in
/-- **C6.** When the cached token is invalid, the CLI strategy errors, and
neither the JWT pair (privateKey, subject) nor the username/password pair is
present, `getAccessToken` fails with the configuration error — whose message
names the required fields of each supported mode — and makes no network
call. -/
theorem getAccessToken_config_error
    (cfg : SalesforceConfig) (st : AuthState) (env : AuthEnv) (e : List Char)
    (hcache : cacheValid st env.now = false)
    (hcli : authenticateWithSfCli cfg env = Except.error e)
    (hjwt : jwtConfigured cfg = false)
    (hpw : passwordConfigured cfg = false) :
    (SalesforceAuth.getAccessToken cfg st env).result =
      Except.error (AuthError.thrown invalidConfigMsg) ∧
    (SalesforceAuth.getAccessToken cfg st env).netCalls = 0 ∧
    "privateKey".data <:+: invalidConfigMsg ∧
    "subject".data <:+: invalidConfigMsg ∧
    "username".data <:+: invalidConfigMsg ∧
    "password".data <:+: invalidConfigMsg := by
  unfold SalesforceAuth.getAccessToken
  rw [hcache, hcli]
  unfold authFallback
  rw [hjwt, hpw]
  refine ⟨rfl, rfl, ?_, ?_, ?_, ?_⟩ <;> decide

/-- A configuration offering no strategy at all. -/
def cfgNoStrategy : SalesforceConfig :=
  ⟨"https://login.salesforce.com".data, "clientId123".data,
   none, none, none, none, none, none, none⟩

/-- An environment in which the SF CLI is unavailable. -/
def envNoCli : AuthEnv := ⟨none, none, none, 0⟩

/-- Witness for C6 at a concrete unusable configuration. -/
theorem getAccessToken_config_error_witness :
    (SalesforceAuth.getAccessToken cfgNoStrategy AuthState.empty envNoCli).result =
      Except.error (AuthError.thrown invalidConfigMsg) ∧
    (SalesforceAuth.getAccessToken cfgNoStrategy AuthState.empty envNoCli).netCalls = 0 :=
  ⟨(getAccessToken_config_error cfgNoStrategy AuthState.empty envNoCli
      "SF CLI is not installed or not available in PATH".data
      rfl rfl rfl rfl).1,
   (getAccessToken_config_error cfgNoStrategy AuthState.empty envNoCli
      "SF CLI is not installed or not available in PATH".data
      rfl rfl rfl rfl).2.1⟩

/-- After a successful `authFallback`, the cached state holds the returned
token with the flat TTL, the token is non-empty, and exactly one OAuth
request was made. -/
theorem authFallback_ok (cfg : SalesforceConfig) (st : AuthState)
    (env : AuthEnv) (att : List Strategy) (tok : List Char)
    (h : (authFallback cfg st env att).result = Except.ok tok) :
    (authFallback cfg st env att).state.accessToken = some tok ∧
    tok.isEmpty = false ∧
    (authFallback cfg st env att).state.tokenExpiresAt =
      some (env.now + tokenTtlMs) ∧
    (authFallback cfg st env att).netCalls = 1 := by
  obtain ⟨cli, jwtR, pwR, now⟩ := env
  unfold authFallback at h ⊢
  by_cases hj : jwtConfigured cfg = true
  · cases jwtR with
    | none => simp [hj] at h
    | some td =>
      by_cases he : td.access_token.isEmpty = true
      · simp [hj, he] at h
      · simp [hj, he, freshState] at h ⊢
        simp_all
  · by_cases hp : passwordConfigured cfg = true
    · cases pwR with
      | none => simp [hj, hp] at h
      | some td =>
        by_cases he : td.access_token.isEmpty = true
        · simp [hj, hp, he] at h
        · simp [hj, hp, he, freshState] at h ⊢
          simp_all
    · simp [hj, hp] at h

/-- A `getAccessToken` call that had to authenticate and succeeded leaves the
returned (non-empty) token cached with expiry `now + 1h`, and made no OAuth
request exactly when the CLI strategy provided the token. -/
theorem getAccessToken_ok_state (cfg : SalesforceConfig) (st : AuthState)
    (env : AuthEnv) (tok : List Char)
    (hc : cacheValid st env.now = false)
    (h : (SalesforceAuth.getAccessToken cfg st env).result = Except.ok tok) :
    (SalesforceAuth.getAccessToken cfg st env).state.accessToken = some tok ∧
    tok.isEmpty = false ∧
    (SalesforceAuth.getAccessToken cfg st env).state.tokenExpiresAt =
      some (env.now + tokenTtlMs) ∧
    (SalesforceAuth.getAccessToken cfg st env).netCalls =
      (if cliYieldsToken cfg env then 0 else 1) := by
  unfold SalesforceAuth.getAccessToken at h ⊢
  unfold cliYieldsToken
  rw [hc] at h ⊢
  simp only [Bool.false_eq_true, if_false] at h ⊢
  cases hcli : authenticateWithSfCli cfg env with
  | ok p =>
    obtain ⟨tok', inst⟩ := p
    rw [hcli] at h
    dsimp only at h ⊢
    by_cases he : tok'.isEmpty = true
    · simp only [he, if_true] at h ⊢
      have hfb := authFallback_ok cfg (freshState tok' inst env.now) env
        [Strategy.cli] tok h
      exact ⟨hfb.1, hfb.2.1, hfb.2.2.1, by simp [he, hfb.2.2.2]⟩
    · simp only [he, if_false] at h ⊢
      obtain rfl : tok' = tok := by simpa using h
      exact ⟨rfl, by simpa using he, rfl, by simp [he]⟩
  | error e =>
    rw [hcli] at h
    dsimp only at h ⊢
    have hfb := authFallback_ok cfg st env [Strategy.cli] tok h
    exact ⟨hfb.1, hfb.2.1, hfb.2.2.1, by simp [hfb.2.2.2]⟩

/-- A call whose cached token is valid returns it with no attempt, no
state change and no network request. -/
theorem getAccessToken_cache_hit (cfg : SalesforceConfig) (st : AuthState)
    (env : AuthEnv) (t : List Char)
    (hv : cacheValid st env.now = true) (ht : st.accessToken = some t) :
    SalesforceAuth.getAccessToken cfg st env =
      { result := Except.ok t, state := st, attempts := [], netCalls := 0 } := by
  unfold SalesforceAuth.getAccessToken
  rw [hv, ht]
  rfl

/-- **C3, amended.** With a cached non-empty token whose expiry lies strictly
in the future, `getAccessToken` returns the cached token with no strategy
attempt and no network request (no I/O at all); consequently, of two
consecutive calls within the cached TTL window the second performs no I/O,
and the pair issues at most one network authentication request — exactly one
when the first call authenticated over the network (JWT or
username/password), and zero when it reused an SF CLI session. -/
theorem cached_token_reuse
    (cfg : SalesforceConfig) (st : AuthState) (env₁ env₂ : AuthEnv)
    (tok : List Char) :
    (∀ t e, st.accessToken = some t → t ≠ [] → st.tokenExpiresAt = some e →
      e ≠ 0 → env₁.now < e →
      SalesforceAuth.getAccessToken cfg st env₁ =
        { result := Except.ok t, state := st, attempts := [], netCalls := 0 }) ∧
    (cacheValid st env₁.now = false →
      (SalesforceAuth.getAccessToken cfg st env₁).result = Except.ok tok →
      0 ≤ env₁.now →
      env₂.now < env₁.now + tokenTtlMs →
      (SalesforceAuth.getAccessToken cfg
          (SalesforceAuth.getAccessToken cfg st env₁).state env₂) =
        { result := Except.ok tok
          state := (SalesforceAuth.getAccessToken cfg st env₁).state
          attempts := [], netCalls := 0 } ∧
      (SalesforceAuth.getAccessToken cfg st env₁).netCalls +
          (SalesforceAuth.getAccessToken cfg
            (SalesforceAuth.getAccessToken cfg st env₁).state env₂).netCalls =
        (if cliYieldsToken cfg env₁ then 0 else 1)) := by
  constructor
  · intro t e ht htne he hene hlt
    have hv : cacheValid st env₁.now = true := by
      unfold cacheValid
      rw [ht, he]
      simp [htne, hene, hlt]
    exact getAccessToken_cache_hit cfg st env₁ t hv ht
  · intro hc hok hnow hwin
    obtain ⟨hst, hne, hexp, hnet⟩ :=
      getAccessToken_ok_state cfg st env₁ tok hc hok
    have hv : cacheValid (SalesforceAuth.getAccessToken cfg st env₁).state
        env₂.now = true := by
      unfold cacheValid
      rw [hst, hexp]
      have h1 : (env₁.now + tokenTtlMs) ≠ 0 := by unfold tokenTtlMs; omega
      have h2 : env₂.now < env₁.now + tokenTtlMs := hwin
      simp [hne, h1, h2]
    have h2 := getAccessToken_cache_hit cfg
      (SalesforceAuth.getAccessToken cfg st env₁).state env₂ tok hv hst
    refine ⟨h2, ?_⟩
    rw [h2, hnet]
    simp

/-- A JWT-only configuration. -/
def cfgJwtOnly : SalesforceConfig :=
  ⟨"https://login.salesforce.com".data, "clientId123".data, none, none, none,
   none, some "PRIVATE_KEY_PEM".data, some "jwt.user@example.com".data, none⟩

/-- A successful JWT token-endpoint response. -/
def tdJwt : SalesforceTokenResponse :=
  ⟨"JWT_TOKEN".data, "https://org.example.com".data⟩

/-- No CLI, JWT exchange succeeds, at the given time. -/
def envJwtOk (now : Int) : AuthEnv := ⟨none, some tdJwt, none, now⟩

/-- Witness for the amended C3: a first call authenticating via JWT followed
by a call 1000 ms later reuses the cached token with zero further requests,
one network request in total. -/
theorem cached_token_reuse_witness :
    (SalesforceAuth.getAccessToken cfgJwtOnly
        (SalesforceAuth.getAccessToken cfgJwtOnly AuthState.empty
          (envJwtOk 0)).state (envJwtOk 1000)) =
      { result := Except.ok "JWT_TOKEN".data
        state := (SalesforceAuth.getAccessToken cfgJwtOnly AuthState.empty
          (envJwtOk 0)).state
        attempts := [], netCalls := 0 } ∧
    (SalesforceAuth.getAccessToken cfgJwtOnly AuthState.empty
        (envJwtOk 0)).netCalls +
      (SalesforceAuth.getAccessToken cfgJwtOnly
        (SalesforceAuth.getAccessToken cfgJwtOnly AuthState.empty
          (envJwtOk 0)).state (envJwtOk 1000)).netCalls =
      (if cliYieldsToken cfgJwtOnly (envJwtOk 0) then 0 else 1) :=
  (cached_token_reuse cfgJwtOnly AuthState.empty (envJwtOk 0) (envJwtOk 1000)
    "JWT_TOKEN".data).2 rfl rfl (by decide) (by decide)

/-- A locally authenticated, connected, default CLI org. -/
def orgConnected : SfOrgInfo :=
  ⟨some "dev".data, "dev@example.com".data, "CLI_TOKEN".data,
   "https://org.example.com".data, "Connected".data, some true⟩

/-- `sf org list` succeeds with that single org, at the given time. -/
def envCliOk (now : Int) : AuthEnv :=
  ⟨some ⟨0, ⟨[orgConnected], [], [], [], []⟩⟩, none, none, now⟩

/-- **C3, counterexample.** Two consecutive `getAccessToken` calls inside
the TTL window, starting with no cached token, can issue *zero* network
authentication requests rather than exactly one: the first call reuses an SF
CLI session, which involves no network request from this code. -/
theorem two_cached_calls_zero_network_requests :
    cacheValid AuthState.empty (envCliOk 0).now = false ∧
    (SalesforceAuth.getAccessToken cfgNoStrategy AuthState.empty
        (envCliOk 0)).result = Except.ok "CLI_TOKEN".data ∧
    (SalesforceAuth.getAccessToken cfgNoStrategy
        (SalesforceAuth.getAccessToken cfgNoStrategy AuthState.empty
          (envCliOk 0)).state (envCliOk 1000)).result =
      Except.ok "CLI_TOKEN".data ∧
    (SalesforceAuth.getAccessToken cfgNoStrategy
        (SalesforceAuth.getAccessToken cfgNoStrategy AuthState.empty
          (envCliOk 0)).state (envCliOk 1000)).attempts = [] ∧
    (SalesforceAuth.getAccessToken cfgNoStrategy AuthState.empty
        (envCliOk 0)).netCalls +
      (SalesforceAuth.getAccessToken cfgNoStrategy
        (SalesforceAuth.getAccessToken cfgNoStrategy AuthState.empty
          (envCliOk 0)).state (envCliOk 1000)).netCalls ≠ 1 :=
  ⟨rfl, rfl, rfl, rfl, by decide⟩

/-- The strategies `authFallback` records, independent of the exchange
outcomes: JWT when configured, otherwise username/password when configured,
otherwise none. -/
theorem authFallback_attempts (cfg : SalesforceConfig) (st : AuthState)
    (env : AuthEnv) (att : List Strategy) :
    (authFallback cfg st env att).attempts =
      att ++ (if jwtConfigured cfg then [Strategy.jwt]
              else if passwordConfigured cfg then [Strategy.password]
              else []) := by
  unfold authFallback
  by_cases hj : jwtConfigured cfg = true
  · simp only [hj, if_true]
    cases env.jwtResponse with
    | none => rfl
    | some td =>
      by_cases he : td.access_token.isEmpty = true <;> simp [he]
  · simp only [hj, Bool.false_eq_true, if_false]
    by_cases hp : passwordConfigured cfg = true
    · simp only [hp, if_true]
      cases env.passwordResponse with
      | none => rfl
      | some td =>
        by_cases he : td.access_token.isEmpty = true <;> simp [he]
    · simp [hj, hp]

/-- **C2, amended.** On every call with an invalid cached token the CLI
strategy is attempted first (regardless of any earlier success); when it
does not return a token the call attempts exactly one fallback — JWT when
privateKey and subject are configured, otherwise username/password when
configured, otherwise none — so a JWT exchange failure propagates without
the password strategy being attempted; and when the CLI yields a (non-empty)
token, that token is the result. -/
theorem getAccessToken_attempt_order
    (cfg : SalesforceConfig) (st : AuthState) (env : AuthEnv)
    (hcache : cacheValid st env.now = false) :
    (SalesforceAuth.getAccessToken cfg st env).attempts =
      Strategy.cli ::
        (if cliYieldsToken cfg env then []
         else if jwtConfigured cfg then [Strategy.jwt]
         else if passwordConfigured cfg then [Strategy.password]
         else []) ∧
    (∀ tok inst, authenticateWithSfCli cfg env = Except.ok (tok, inst) →
      tok.isEmpty = false →
      (SalesforceAuth.getAccessToken cfg st env).result = Except.ok tok) := by
  constructor
  · unfold SalesforceAuth.getAccessToken cliYieldsToken
    rw [hcache]
    simp only [Bool.false_eq_true, if_false]
    cases hcli : authenticateWithSfCli cfg env with
    | ok p =>
      obtain ⟨tok, inst⟩ := p
      dsimp only
      by_cases he : tok.isEmpty = true
      · simp only [he, if_true, Bool.not_true, Bool.false_eq_true, if_false]
        rw [authFallback_attempts]
        rfl
      · simp [he]
    | error e =>
      dsimp only
      rw [authFallback_attempts]
      rfl
  · intro tok inst hcli hne
    unfold SalesforceAuth.getAccessToken
    rw [hcache, hcli]
    simp [hne]

/-- Witness for the amended C2: with an unusable CLI and only a JWT
configuration, the attempts are CLI then JWT. -/
theorem getAccessToken_attempt_order_witness :
    (SalesforceAuth.getAccessToken cfgJwtOnly AuthState.empty
        (envJwtOk 0)).attempts =
      Strategy.cli ::
        (if cliYieldsToken cfgJwtOnly (envJwtOk 0) then []
         else if jwtConfigured cfgJwtOnly then [Strategy.jwt]
         else if passwordConfigured cfgJwtOnly then [Strategy.password]
         else []) :=
  (getAccessToken_attempt_order cfgJwtOnly AuthState.empty (envJwtOk 0)
    rfl).1

/-- A configuration carrying both the JWT pair and username/password. -/
def cfgJwtAndPassword : SalesforceConfig :=
  ⟨"https://login.salesforce.com".data, "clientId123".data, none,
   some "user@example.com".data, some "hunter2".data, none,
   some "PRIVATE_KEY_PEM".data, some "user@example.com".data, none⟩

/-- No CLI, JWT exchange rejected, password exchange would succeed. -/
def envJwtFails : AuthEnv :=
  ⟨none, none, some ⟨"PW_TOKEN".data, "https://org.example.com".data⟩, 0⟩

/-- **C2, counterexample.** With username/password configured, the CLI
failing and the JWT exchange failing, the call errors out without ever
attempting the username/password strategy — the strategies are not simply
"attempted in order with the first success winning". -/
theorem password_not_attempted_after_jwt_failure :
    passwordConfigured cfgJwtAndPassword = true ∧
    cacheValid AuthState.empty envJwtFails.now = false ∧
    (SalesforceAuth.getAccessToken cfgJwtAndPassword AuthState.empty
        envJwtFails).result = Except.error (AuthError.network Strategy.jwt) ∧
    Strategy.password ∉
      (SalesforceAuth.getAccessToken cfgJwtAndPassword AuthState.empty
        envJwtFails).attempts :=
  ⟨rfl, rfl, rfl, by decide⟩

/-- **C5, amended.** A network token refresh (cache invalid, CLI strategy
failed) is atomic on success: a successful JWT or username/password exchange
replaces all three cached fields (token, instance URL, expiry) together, as
one `freshState`.  On a failed exchange the error propagates and the cached
fields are left exactly as they were — the stale token is retained (though
never returned again, its expiry being unchanged), not discarded. -/
theorem token_refresh_atomicity
    (cfg : SalesforceConfig) (st : AuthState) (env : AuthEnv) (e : List Char)
    (hcache : cacheValid st env.now = false)
    (hcli : authenticateWithSfCli cfg env = Except.error e) :
    (∀ td, jwtConfigured cfg = true → env.jwtResponse = some td →
      td.access_token.isEmpty = false →
      SalesforceAuth.getAccessToken cfg st env =
        { result := Except.ok td.access_token
          state := freshState td.access_token td.instance_url env.now
          attempts := [Strategy.cli, Strategy.jwt], netCalls := 1 }) ∧
    (jwtConfigured cfg = true → env.jwtResponse = none →
      (SalesforceAuth.getAccessToken cfg st env).result =
        Except.error (AuthError.network Strategy.jwt) ∧
      (SalesforceAuth.getAccessToken cfg st env).state = st) ∧
    (∀ td, jwtConfigured cfg = false → passwordConfigured cfg = true →
      env.passwordResponse = some td → td.access_token.isEmpty = false →
      SalesforceAuth.getAccessToken cfg st env =
        { result := Except.ok td.access_token
          state := freshState td.access_token td.instance_url env.now
          attempts := [Strategy.cli, Strategy.password], netCalls := 1 }) ∧
    (jwtConfigured cfg = false → passwordConfigured cfg = true →
      env.passwordResponse = none →
      (SalesforceAuth.getAccessToken cfg st env).result =
        Except.error (AuthError.network Strategy.password) ∧
      (SalesforceAuth.getAccessToken cfg st env).state = st) := by
  unfold SalesforceAuth.getAccessToken
  rw [hcache, hcli]
  simp only [Bool.false_eq_true, if_false]
  unfold authFallback
  refine ⟨?_, ?_, ?_, ?_⟩
  · intro td hj hresp hne
    rw [hj, hresp]
    simp [hne]
  · intro hj hresp
    rw [hj, hresp]
    simp
  · intro td hj hp hresp hne
    rw [hj, hp, hresp]
    simp [hne]
  · intro hj hp hresp
    rw [hj, hp, hresp]
    simp

/-- Witness for the amended C5: concrete successful JWT refresh replacing
all three cached fields at once. -/
theorem token_refresh_atomicity_witness :
    SalesforceAuth.getAccessToken cfgJwtOnly AuthState.empty (envJwtOk 0) =
      { result := Except.ok tdJwt.access_token
        state := freshState tdJwt.access_token tdJwt.instance_url 0
        attempts := [Strategy.cli, Strategy.jwt], netCalls := 1 } :=
  (token_refresh_atomicity cfgJwtOnly AuthState.empty (envJwtOk 0)
      "SF CLI is not installed or not available in PATH".data rfl rfl).1
    tdJwt rfl rfl rfl

/-- A state caching a stale token that expired at epoch-ms 500. -/
def stStale : AuthState :=
  ⟨some "STALE_TOKEN".data, some "https://old.example.com".data, some 500⟩

/-- No CLI and a rejected JWT exchange, at epoch-ms 1000 (past expiry). -/
def envJwtDown : AuthEnv := ⟨none, none, none, 1000⟩

/-- **C5, counterexample.** When a refresh fails, the stale token is *not*
discarded: after a failed JWT exchange the state still caches the old
token (and old instance URL), the error merely propagating. -/
theorem failed_refresh_retains_stale_token :
    (SalesforceAuth.getAccessToken cfgJwtOnly stStale envJwtDown).result =
      Except.error (AuthError.network Strategy.jwt) ∧
    (SalesforceAuth.getAccessToken cfgJwtOnly stStale
        envJwtDown).state.accessToken = some "STALE_TOKEN".data ∧
    (SalesforceAuth.getAccessToken cfgJwtOnly stStale
        envJwtDown).state.accessToken ≠ none :=
  ⟨rfl, rfl, by decide⟩

/-! ### AsyncApexJob helpers of the REST client (proxied to the Tooling
Client) -/

/-- The shape of a Tooling query response: `{totalSize, done, records}`. -/
structure ToolingApiResponse (α : Type) where
  totalSize : Nat
  done : Bool
  records : List α

/-- The search parameters of `searchAsyncApexJobs`
(`src/client/rest-client.ts`). -/
structure AsyncJobSearchParams where
  status : Option (List Char)
  jobType : Option (List Char)
  apexClassName : Option (List Char)
  createdDateFrom : Option (List Char)
  createdDateTo : Option (List Char)
  limit : Option Nat
deriving Repr

/-- One `if (searchParams.x) soql += mk(x)` step (JS truthiness: absent or
empty strings append nothing). -/
def appendIfTruthy (soql : List Char) (v : Option (List Char))
    (mk : List Char → List Char) : List Char :=
  match v with
  | some s => if s.isEmpty then soql else soql ++ mk s
  | none => soql

/-- The SOQL string built by `SalesforceRestClient.searchAsyncApexJobs`
(`src/client/rest-client.ts`), including the `searchParams.limit || 100`
default (JS truthiness: a limit of 0 also falls back to 100). -/
def searchAsyncApexJobsSoql (p : AsyncJobSearchParams) : List Char :=
  let soql := ("SELECT Id, Status, JobType, MethodName, JobItemsProcessed, " ++
    "TotalJobItems, NumberOfErrors, CompletedDate, CreatedDate, " ++
    "CreatedBy.Name, ApexClass.Name FROM AsyncApexJob WHERE 1=1").data
  let soql := appendIfTruthy soql p.status
    (fun s => " AND Status = '".data ++ s ++ "'".data)
  let soql := appendIfTruthy soql p.jobType
    (fun s => " AND JobType = '".data ++ s ++ "'".data)
  let soql := appendIfTruthy soql p.apexClassName
    (fun s => " AND ApexClass.Name LIKE '%".data ++ s ++ "%'".data)
  let soql := appendIfTruthy soql p.createdDateFrom
    (fun s => " AND CreatedDate >= ".data ++ s)
  let soql := appendIfTruthy soql p.createdDateTo
    (fun s => " AND CreatedDate <= ".data ++ s)
  let lim : Nat := match p.limit with
    | some n => if n ≠ 0 then n else 100
    | none => 100
  soql ++ " ORDER BY CreatedDate DESC LIMIT ".data ++ (Nat.repr lim).data

/-- `SalesforceRestClient.searchAsyncApexJobs`: build the SOQL, pass it to
the Tooling Client's `query`, return the response's `records` field.  The
Tooling Client is abstracted as the function from SOQL text to response. -/
def searchAsyncApexJobs {α : Type} (p : AsyncJobSearchParams)
    (toolingQuery : List Char → ToolingApiResponse α) : List α :=
  (toolingQuery (searchAsyncApexJobsSoql p)).records

/-- The parameters `{status: 'Completed', limit: 50}`. -/
def searchCompleted50 : AsyncJobSearchParams :=
  ⟨some "Completed".data, none, none, none, none, some 50⟩

set_option maxRecDepth 65536 in
/-- **C8.** `searchAsyncApexJobs({status: 'Completed', limit: 50})` builds a
single SOQL string whose WHERE clause constrains `Status = 'Completed'` and
which ends with `LIMIT 50`, hands exactly that string to the Tooling
Client's `query`, and returns that response's `records` array unmodified. -/
theorem searchAsyncApexJobs_completed_50 :
    (∀ (α : Type) (toolingQuery : List Char → ToolingApiResponse α),
      searchAsyncApexJobs searchCompleted50 toolingQuery =
        (toolingQuery (searchAsyncApexJobsSoql searchCompleted50)).records) ∧
    "WHERE 1=1 AND Status = 'Completed'".data <:+:
      searchAsyncApexJobsSoql searchCompleted50 ∧
    "LIMIT 50".data <:+ searchAsyncApexJobsSoql searchCompleted50 := by
  refine ⟨fun α toolingQuery => rfl, ?_, ?_⟩ <;> decide

/-- The SOQL string built by `SalesforceRestClient.getAsyncApexJob`
(`src/client/rest-client.ts`). -/
def getAsyncApexJobSoql (jobId : List Char) : List Char :=
  ("SELECT Id, Status, JobType, MethodName, JobItemsProcessed, " ++
   "TotalJobItems, NumberOfErrors, CompletedDate, CreatedDate, " ++
   "CreatedBy.Name, ExtendedStatus FROM AsyncApexJob WHERE Id = '").data ++
  jobId ++ "'".data

/-- `SalesforceRestClient.getAsyncApexJob`: query the Tooling Client and
return `result.records[0]` — JS indexing past the end yields `undefined`,
modelled as `Option` via `head?`. -/
def getAsyncApexJob {α : Type} (jobId : List Char)
    (toolingQuery : List Char → ToolingApiResponse α) : Option α :=
  (toolingQuery (getAsyncApexJobSoql jobId)).records.head?

/-- **C10.** `getAsyncApexJob(jobId)` returns element 0 of the `records`
array of the Tooling query response, and when that array is empty it
returns `undefined` (`none`) rather than raising an error. -/
theorem getAsyncApexJob_returns_first_record_or_undefined
    {α : Type} (jobId : List Char)
    (toolingQuery : List Char → ToolingApiResponse α) :
    ((toolingQuery (getAsyncApexJobSoql jobId)).records = [] →
      getAsyncApexJob jobId toolingQuery = none) ∧
    (∀ x xs, (toolingQuery (getAsyncApexJobSoql jobId)).records = x :: xs →
      getAsyncApexJob jobId toolingQuery = some x) := by
  constructor
  · intro h
    unfold getAsyncApexJob
    rw [h]
    rfl
  · intro x xs h
    unfold getAsyncApexJob
    rw [h]
    rfl

/-- Witness for C10 at a concrete job id and empty response. -/
theorem getAsyncApexJob_returns_first_record_or_undefined_witness :
    getAsyncApexJob "707000000000001".data
        (fun _ => (⟨0, true, []⟩ : ToolingApiResponse Nat)) = none :=
  (getAsyncApexJob_returns_first_record_or_undefined "707000000000001".data
    (fun _ => (⟨0, true, []⟩ : ToolingApiResponse Nat))).1 rfl
